import Mathlib

/-!
Shallow embedding of the `websockethandler` Go package (files `handler.go`
and `utils.go`) and verification of its specification claims.

Modelling conventions, stated once:

* Go maps become functions into `Option`; a map write is a pointwise
  functional update.
* Go `error` values become `Option String` (`none` is the `nil` error);
  only the constant part of each `fmt.Errorf` format string is kept (the
  dynamic `%v`/`getFunctionName()` suffixes of the source messages carry
  no information the claims mention).
* A Go handler function value (`HandlerFunc`) is a pair of an identity
  `id : Nat` and a behaviour `run`.  The source keys the function tree by
  `fmt.Sprintf("%#v", f)`, which renders the function pointer: two handler
  values collide exactly when they are the same function value, so the
  string key is modelled by the identity `id`.
* The mutable pointer-linked `wsHandlerTree` nodes live in a heap modelled
  by the `funcTree` map itself: a node stores the tree keys of its parent
  and child, and an in-place pointer mutation becomes a field update of
  the node stored at that key.  Nodes are only ever created together with
  their map entry, so node identity and map key coincide.
* `context.Context` is abstracted to exactly what the gate observes:
  whether `ctx.Done()` is ready before the one-millisecond grace timer of
  one `select` round fires, and whether `ctx.Err()` is
  `context.DeadlineExceeded` at that point.  Both are stable once the
  context is done, so the abstraction is a constant record.
* The two source loops (`shell`'s `for`/`select` and the pipeline walk)
  are given step functions iterated on fuel; exhausted fuel is `none`.
  A result that is `none` for every fuel models a loop that never returns.
* Logging (`wsHandler.log`) is a side effect on the collaborator logger;
  the model records only the fact the gate issued a log call at error
  severity (field `loggedError`), which is what the claims mention.
  The `sync.RWMutex` is dropped: all modelled operations are sequential.
-/

/-- Severity level, Go `type level uint8` with the `iota` constants. -/
abbrev level := Nat

def panicLevel : level := 0

def fatalLevel : level := 1

def errorLevel : level := 2

def warnLevel : level := 3

def infoLevel : level := 4

def debugLevel : level := 5

def traceLevel : level := 6

/-- The exported status string `ErrorLevel = "error"` from `utils.go`. -/
def ErrorLevel : String := "error"

def WarnLevel : String := "warning"

/-- Models Go `%q` on the plain (escape-free) strings the claims use. -/
def quoteGo (s : String) : String := "\"" ++ s ++ "\""

/-- Models `strings.ToLower`, characterwise over the string's characters
(`Char.toLower` is the simple case mapping on the ASCII range, which
covers every character of the accepted level names). -/
def toLowerGo (s : String) : String := ⟨s.data.map Char.toLower⟩

/-- `ParseLevel` from `utils.go`: switch on `strings.ToLower(lvl)`;
the fall-through returns the zero `level` and a non-nil error built from
the format string `"not a valid Level: %q"`.  Go returns the pair
`(level, error)`; the error component is `none` on success. -/
def ParseLevel (lvl : String) : level × Option String :=
  let s := toLowerGo lvl
  if s = "panic" then (panicLevel, none)
  else if s = "fatal" then (fatalLevel, none)
  else if s = "error" then (errorLevel, none)
  else if s = "warn" ∨ s = "warning" then (warnLevel, none)
  else if s = "info" then (infoLevel, none)
  else if s = "debug" then (debugLevel, none)
  else if s = "trace" then (traceLevel, none)
  else (0, some ("not a valid Level: " ++ quoteGo lvl))

/-- `MessagePayload` from `handler.go`.  `Data interface{}` is modelled by
`Option String` (absent or an opaque value; the only value the core itself
ever writes is the string `"timeout reached"`).  The Go zero value of
`Status` is the empty string and of `Broadcast` is `false`. -/
structure MessagePayload where
  Event : String
  Data : Option String
  Status : String
  Broadcast : Bool
deriving DecidableEq, Repr

/-- `WsFuncData` from `handler.go`; `Client interface{}` is an opaque
nilable caller identity, modelled by `Option Nat` (`none` is the zero
value of the interface). -/
structure WsFuncData where
  Client : Option Nat
  Payload : MessagePayload
deriving DecidableEq, Repr

/-- Registry key `WsFunc` from `handler.go`. -/
structure WsFunc where
  Event : String
  Status : String
deriving DecidableEq, Repr

/-- Abstraction of a `context.Context` as observed by one round of
`shell`'s `select`: `done` says whether `ctx.Done()` is ready strictly
before the fresh one-millisecond `time.After` timer of the round fires
(once done, a context stays done, so this is round-independent), and
`deadlineExceeded` says whether `ctx.Err() == context.DeadlineExceeded`
then (also stable). -/
structure Ctx where
  done : Bool
  deadlineExceeded : Bool
deriving DecidableEq, Repr

/-- A Go `HandlerFunc` value: `id` models the function value's identity
(the `fmt.Sprintf("%#v", f)` tree key renders its pointer), `run` its
behaviour `(context, data) -> (data, error)`. -/
structure HandlerFunc where
  id : Nat
  run : Ctx → WsFuncData → WsFuncData × Option String

/-- Outcome of running `shell`: `result` is the returned data (`none`
while the loop has not returned), `invoked` records whether the wrapped
handler was called, `loggedError` whether a log call at `errorLevel` was
issued (`h.log` prints it whenever the configured level admits it). -/
structure ShellTrace where
  result : Option WsFuncData
  invoked : Bool
  loggedError : Bool
deriving DecidableEq, Repr

/-- One round of the `for { select { ... } }` loop in `shell`
(`handler.go` lines 213-246).  If the context is done before the grace
timer fires, the `ctx.Done()` case runs: on `DeadlineExceeded` it logs at
error severity and returns the synthetic timeout payload; on any other
cause the `if` falls through and the round produces nothing.  Otherwise
the timer case runs the handler synchronously, logging at error severity
when it returns a non-nil error, and returns its data unchanged. -/
def shellIter (f : HandlerFunc) (ctx : Ctx) (data : WsFuncData) : ShellTrace :=
  if ctx.done then
    if ctx.deadlineExceeded then
      { result := some
          { Client := data.Client
            Payload :=
              { Event := data.Payload.Event
                Data := some "timeout reached"
                Status := ErrorLevel
                Broadcast := false } }
        invoked := false
        loggedError := true }
    else
      { result := none, invoked := false, loggedError := false }
  else
    { result := some (f.run ctx data).1
      invoked := true
      loggedError := ((f.run ctx data).2).isSome }

/-- `shell` as iteration of `shellIter` on fuel: the source loop repeats
until a round returns.  `result = none` means no round among the first
`fuel` returned; since `Ctx` is round-independent, `none` at every fuel
models a loop that never returns. -/
def shellRun (fuel : Nat) (f : HandlerFunc) (ctx : Ctx) (data : WsFuncData) : ShellTrace :=
  match fuel with
  | 0 => { result := none, invoked := false, loggedError := false }
  | fuel' + 1 =>
    let t := shellIter f ctx data
    match t.result with
    | some _ => t
    | none => shellRun fuel' f ctx data

/-- A `wsHandlerTree` node (`handler.go` lines 14-18).  `parent` and
`children` are pointers in Go; here they hold the `funcTree` key of the
linked node (nodes are created only together with their map entry at the
key of their `main` handler, so key and node identity coincide). -/
structure wsHandlerTree where
  main : HandlerFunc
  parent : Option Nat
  children : Option Nat

/-- Pointwise update of a Go map. -/
def update {α β : Type} [DecidableEq α] (m : α → Option β) (k : α) (v : β) :
    α → Option β :=
  fun k' => if k' = k then some v else m k'

/-- In-place pointer mutation `node.children = c` of the node stored at
key `k` (a no-op on an absent key, which Go cannot reach: the caller
holds a pointer obtained from the map). -/
def setChildren (t : Nat → Option wsHandlerTree) (k : Nat) (c : Option Nat) :
    Nat → Option wsHandlerTree :=
  fun k' => if k' = k then (t k).map (fun n => { n with children := c }) else t k'

/-- In-place pointer mutation `node.parent = p` of the node stored at key `k`. -/
def setParent (t : Nat → Option wsHandlerTree) (k : Nat) (p : Option Nat) :
    Nat → Option wsHandlerTree :=
  fun k' => if k' = k then (t k).map (fun n => { n with parent := p }) else t k'

/-- The `wsHandler` state (`handler.go` lines 49-58).  The Go field `fun`
is a Lean keyword, so the handler map is named `funs`.  The mutex and the
logger collaborator are not part of the modelled state. -/
structure wsHandler where
  funs : WsFunc → Option HandlerFunc
  funcTree : Nat → Option wsHandlerTree
  logLevel : level
  err : Option String

/-- `NewHandler` (`handler.go` lines 60-72): empty maps, `infoLevel`
threshold, nil error.  The construction-time info log call is a pure
collaborator side effect and is not modelled. -/
def NewHandler : wsHandler :=
  { funs := fun _ => none
    funcTree := fun _ => none
    logLevel := infoLevel
    err := none }

/-- `GetError` (`handler.go` lines 87-89). -/
def GetError (h : wsHandler) : Option String := h.err

/-- `SetLogLevel` (`handler.go` lines 92-104): a no-op when the sticky
error is set; otherwise parses the level, recording a wrapped parse error
or installing the new threshold. -/
def SetLogLevel (h : wsHandler) (lvl : String) : wsHandler :=
  match h.err with
  | some _ => h
  | none =>
    match ParseLevel lvl with
    | (_, some e) => { h with err := some (e ++ ":" ++ "SetLogLevel") }
    | (l, none) => { h with logLevel := l }

/-- The parent-linking second half of `Handle` (`handler.go` lines
128-139), entered with the node for `keyMain` already present in
`h.funcTree` (looked up or freshly inserted).  On success it performs the
two pointer writes `parentHandlerTree.children = mainHandlerTree` and
`mainHandlerTree.parent = parentHandlerTree` and then the map write
`h.fun[meta] = f` of line 149. -/
def linkParent (h : wsHandler) (meta : WsFunc) (f : HandlerFunc)
    (keyMain : Nat) (parentFunc : HandlerFunc) : wsHandler :=
  let keyParent := parentFunc.id
  match h.funcTree keyParent with
  | some parentHandlerTree =>
    if parentHandlerTree.children.isSome then
      { h with err := some "the parent function has a child function declaration" }
    else
      let t1 := setChildren h.funcTree keyParent (some keyMain)
      let t2 := setParent t1 keyMain (some keyParent)
      { h with funcTree := t2, funs := update h.funs meta f }
  | none => { h with err := some "there is no registered parent function" }

/-- `Handle` (`handler.go` lines 107-153).  The variadic `parent`
argument (only `parent[0]` is ever read) is an `Option`.  Order of the
source checks is preserved: sticky-error guard, duplicate-key guard, then
either the parent path (look up or create the node for `f`, reject when
that node already has a child, then link under the parent) or the no-parent
path (reject a duplicate chain root, else create the node), and finally
the `h.fun[meta] = f` map write on every successful path. -/
def Handle (h : wsHandler) (meta : WsFunc) (f : HandlerFunc)
    (parent : Option HandlerFunc) : wsHandler :=
  match h.err with
  | some _ => h
  | none =>
    if (h.funs meta).isSome then
      { h with err := some "func with current params has been registered" }
    else
      match parent with
      | some parentFunc =>
        let keyMain := f.id
        match h.funcTree keyMain with
        | some mainHandlerTree =>
          if mainHandlerTree.children.isSome then
            { h with err := some "the current function has a child function declaration" }
          else
            linkParent h meta f keyMain parentFunc
        | none =>
          let h1 := { h with
            funcTree := update h.funcTree keyMain
              { main := f, parent := none, children := none } }
          linkParent h1 meta f keyMain parentFunc
      | none =>
        let keyMain := f.id
        if (h.funcTree keyMain).isSome then
          { h with err := some "this function is declared" }
        else
          { h with
            funcTree := update h.funcTree keyMain
              { main := f, parent := none, children := none }
            funs := update h.funs meta f }

/-- `CallFunc` (`handler.go` lines 193-211).  On a registry hit it runs
the gate and returns `(d, nil)`; on a miss it returns a synthetic payload
(`Client` is the zero interface, `Status = ErrorLevel`, original event)
together with a non-nil error.  The whole call is `none` when the gate
itself never returns within `sfuel` rounds.  The two debug log calls are
collaborator side effects and are not modelled. -/
def CallFunc (h : wsHandler) (ctx : Ctx) (sfuel : Nat) (meta : WsFunc)
    (data : WsFuncData) : Option (WsFuncData × Option String) :=
  match h.funs meta with
  | some f =>
    match (shellRun sfuel f ctx data).result with
    | some d => some (d, none)
    | none => none
  | none =>
    some
      ({ Client := none
         Payload :=
           { Event := data.Payload.Event
             Data := none
             Status := ErrorLevel
             Broadcast := false } },
       some "func with current params has not been registered")

/-- Models `context.WithTimeout(ctx, time.Second*30)` as seen by the
gate: the derived context is done before the one-millisecond grace window
closes iff the ambient one is (the fresh 30-second budget cannot elapse
inside that window), and it inherits the ambient cause, so on this
abstraction the derivation is the identity. -/
def withTimeout (ctx : Ctx) : Ctx := ctx

/-- The `for` loop of `CallPipelineFunc` (`handler.go` lines 166-181),
walking the chain from `node`.  Each round derives a fresh 30-second
step context, runs the gate, sends `d.Payload` on the channel, breaks on
`Status == ErrorLevel`, and otherwise follows the `children` pointer;
the loop variable `data` is never reassigned, so every step receives the
original `data` argument.  Returns the payloads sent in channel order and
the ids of the handlers the gate invoked; `none` when the gate diverges
or `pfuel` rounds did not finish the walk.  A dangling child key cannot
arise from the registration API (child pointers are into the map) and
conservatively ends the walk. -/
def pipelineLoop (h : wsHandler) (ctx : Ctx) (sfuel : Nat) (data : WsFuncData) :
    wsHandlerTree → Nat → Option (List MessagePayload × List Nat)
  | _, 0 => none
  | node, pfuel + 1 =>
    let t := shellRun sfuel node.main (withTimeout ctx) data
    match t.result with
    | none => none
    | some d =>
      let inv := if t.invoked then [node.main.id] else []
      if d.Payload.Status = ErrorLevel then
        some ([d.Payload], inv)
      else
        match node.children with
        | none => some ([d.Payload], inv)
        | some ck =>
          match h.funcTree ck with
          | none => some ([d.Payload], inv)
          | some child =>
            match pipelineLoop h ctx sfuel data child pfuel with
            | none => none
            | some (ps, ids) => some (d.Payload :: ps, inv ++ ids)

/-- `CallPipelineFunc` (`handler.go` lines 156-191).  The value is
`none` when the walk diverges; otherwise `some (sent, invoked, err)`:
the payloads sent on the channel in order, the ids of invoked handlers,
and the returned Go error.  Both lookup misses (registry map, then
function tree) send one synthetic error-status payload preserving the
input event and return a non-nil error; a completed walk returns `nil`. -/
def CallPipelineFunc (h : wsHandler) (ctx : Ctx) (meta : WsFunc)
    (data : WsFuncData) (sfuel pfuel : Nat) :
    Option (List MessagePayload × List Nat × Option String) :=
  match h.funs meta with
  | some f =>
    match h.funcTree f.id with
    | some node =>
      match pipelineLoop h ctx sfuel data node pfuel with
      | some (ps, ids) => some (ps, ids, none)
      | none => none
    | none =>
      some
        ([{ Event := data.Payload.Event, Data := none, Status := ErrorLevel,
            Broadcast := false }], [],
         some "func with current params has not been registered for pipeline")
  | none =>
    some
      ([{ Event := data.Payload.Event, Data := none, Status := ErrorLevel,
          Broadcast := false }], [],
       some "func with current params has not been registered")

/-! Concrete fixtures used by witnesses and counterexamples. -/

/-- A handler of identity `n` that returns its input with a nil error. -/
def tf (n : Nat) : HandlerFunc := { id := n, run := fun _ d => (d, none) }

/-- A handler (identity 2) that stamps `Status = ErrorLevel` on its input. -/
def tfFail : HandlerFunc :=
  { id := 2
    run := fun _ d =>
      ({ d with Payload := { d.Payload with Status := ErrorLevel } }, none) }

/-- A handler (identity 7) that returns its input and a non-nil error. -/
def tfErr : HandlerFunc := { id := 7, run := fun _ d => (d, some "boom") }

/-- A neutral input datum with empty status. -/
def d0 : WsFuncData :=
  { Client := none
    Payload := { Event := "evt", Data := none, Status := "", Broadcast := false } }

/-- C3: if the context's deadline has already expired when the gate runs,
`shell` logs at error severity and returns a synthetic payload with the
input's event name, `Status = ErrorLevel` and the human-readable marker
`"timeout reached"`, and the wrapped handler is never invoked. -/
theorem shell_deadline_synthetic (f : HandlerFunc) (ctx : Ctx)
    (data : WsFuncData) (fuel : Nat) (hd : ctx.done = true)
    (hdl : ctx.deadlineExceeded = true) (hf : 1 ≤ fuel) :
    shellRun fuel f ctx data =
      { result := some
          { Client := data.Client
            Payload :=
              { Event := data.Payload.Event
                Data := some "timeout reached"
                Status := ErrorLevel
                Broadcast := false } }
        invoked := false
        loggedError := true } := by
  cases fuel with
  | zero => exact absurd hf (by omega)
  | succ n => simp [shellRun, shellIter, hd, hdl]

theorem shell_deadline_synthetic_witness :
    shellRun 1 (tf 1) { done := true, deadlineExceeded := true } d0 =
      { result := some
          { Client := none
            Payload :=
              { Event := "evt"
                Data := some "timeout reached"
                Status := ErrorLevel
                Broadcast := false } }
        invoked := false
        loggedError := true } :=
  shell_deadline_synthetic (tf 1) { done := true, deadlineExceeded := true }
    d0 1 rfl rfl (by omega)

/-- C7: the gate returns no error value (its result type carries none);
when the handler runs and returns a non-nil error, the gate logs at error
severity and still returns the data the handler produced, unchanged. -/
theorem shell_handler_error_passthrough (f : HandlerFunc) (ctx : Ctx)
    (data : WsFuncData) (fuel : Nat) (e : String) (hd : ctx.done = false)
    (hf : 1 ≤ fuel) (herr : (f.run ctx data).2 = some e) :
    shellRun fuel f ctx data =
      { result := some (f.run ctx data).1
        invoked := true
        loggedError := true } := by
  cases fuel with
  | zero => exact absurd hf (by omega)
  | succ n => simp [shellRun, shellIter, hd, herr]

theorem shell_handler_error_passthrough_witness :
    shellRun 1 tfErr { done := false, deadlineExceeded := false } d0 =
      { result := some d0, invoked := true, loggedError := true } :=
  shell_handler_error_passthrough tfErr
    { done := false, deadlineExceeded := false } d0 1 "boom" rfl (by omega) rfl

/-- C9: when the context is done for a cause other than deadline expiry
before the one-millisecond grace timer fires, the `ctx.Done()` branch
falls through its `if` without returning and the `for`/`select` loop
repeats forever: for every number of rounds no result is produced, the
wrapped handler is never invoked and nothing is logged. -/
theorem shell_cancel_diverges (f : HandlerFunc) (ctx : Ctx)
    (data : WsFuncData) (hd : ctx.done = true)
    (hdl : ctx.deadlineExceeded = false) :
    ∀ fuel, shellRun fuel f ctx data =
      { result := none, invoked := false, loggedError := false } := by
  intro fuel
  induction fuel with
  | zero => rfl
  | succ n ih => simpa [shellRun, shellIter, hd, hdl] using ih

theorem shell_cancel_diverges_witness :
    shellRun 5 (tf 1) { done := true, deadlineExceeded := false } d0 =
      { result := none, invoked := false, loggedError := false } :=
  shell_cancel_diverges (tf 1) { done := true, deadlineExceeded := false }
    d0 rfl rfl 5

/-- C4: once the sticky error is set, `Handle` and `SetLogLevel` return
the state unchanged (handler map, tree, log level and error included) and
`GetError` yields the stored error. -/
theorem sticky_error_noop (h : wsHandler) (e : String) (meta : WsFunc)
    (f : HandlerFunc) (p : Option HandlerFunc) (lvl : String)
    (he : h.err = some e) :
    Handle h meta f p = h ∧ SetLogLevel h lvl = h ∧ GetError h = some e := by
  refine ⟨?_, ?_, he⟩
  · simp [Handle, he]
  · simp [SetLogLevel, he]

/-- A state whose sticky error is already set. -/
def hStuck : wsHandler :=
  { funs := fun _ => none
    funcTree := fun _ => none
    logLevel := infoLevel
    err := some "boom" }

theorem sticky_error_noop_witness :
    Handle hStuck { Event := "a", Status := "" } (tf 1) none = hStuck ∧
      SetLogLevel hStuck "debug" = hStuck ∧ GetError hStuck = some "boom" :=
  sticky_error_noop hStuck "boom" { Event := "a", Status := "" } (tf 1) none
    "debug" rfl

/-- C8: `ParseLevel` is case-insensitive: `"WARN"` and `"warning"` both
parse to the warn level, and every string whose lowering is outside the
recognised level names fails with an error naming the invalid input. -/
theorem parseLevel_spec :
    ParseLevel "WARN" = (warnLevel, none) ∧
    ParseLevel "warning" = (warnLevel, none) ∧
    ∀ s : String,
      toLowerGo s ∉
        ["panic", "fatal", "error", "warn", "warning", "info", "debug", "trace"] →
      ParseLevel s = (panicLevel, some ("not a valid Level: " ++ quoteGo s)) := by
  refine ⟨by decide, by decide, ?_⟩
  intro s hns
  simp only [List.mem_cons, List.not_mem_nil, or_false, not_or] at hns
  obtain ⟨h1, h2, h3, h4, h5, h6, h7, h8⟩ := hns
  simp [ParseLevel, panicLevel, h1, h2, h3, h4, h5, h6, h7, h8]

theorem parseLevel_spec_witness :
    ParseLevel "WARN" = (warnLevel, none) ∧
    ParseLevel "warning" = (warnLevel, none) ∧
    ParseLevel "bogus" =
      (panicLevel, some ("not a valid Level: " ++ quoteGo "bogus")) :=
  ⟨parseLevel_spec.1, parseLevel_spec.2.1,
    parseLevel_spec.2.2 "bogus" (by decide)⟩

/-- A registry with `tf 1` and `tfFail` as chain roots and `tf 3`
registered as the child of `tf 1` (so node 1 has a child and node 3 has a
parent); no registration failed. -/
def hChain : wsHandler :=
  Handle
    (Handle (Handle NewHandler { Event := "a", Status := "" } (tf 1) none)
      { Event := "b", Status := "" } tfFail none)
    { Event := "c", Status := "" } (tf 3) (some (tf 1))

/-- Registering `tf 3` — already the child of `tf 1` — again, under the
other parent `tfFail`. -/
def hTwoParents : wsHandler :=
  Handle hChain { Event := "d", Status := "" } (tf 3) (some tfFail)

/-- C1 counterexample: in `hChain` the handler `tf 3` is already a child
of another parent (`tf 1`), yet registering it under `tfFail` sets no
error and mutates an existing tree node: `tfFail`'s node gains the child
link to node 3 (and `Handle` only ever checks `children`, never `parent`,
of the node being re-registered). -/
theorem handle_rechild_no_error :
    (hChain.funcTree 3).map wsHandlerTree.parent = some (some 1) ∧
    hChain.err = none ∧
    (hChain.funcTree 2).map wsHandlerTree.children = some none ∧
    hTwoParents.err = none ∧
    (hTwoParents.funcTree 2).map wsHandlerTree.children = some (some 3) ∧
    (hTwoParents.funcTree 3).map wsHandlerTree.parent = some (some 2) := by
  decide

/-- C1 (amended): calling `Handle` with a parent argument where the
handler's tree node already has its own child sets the sticky error state
and leaves the function tree and the handler map entirely unchanged. -/
theorem handle_child_conflict_sticky (h : wsHandler) (meta : WsFunc)
    (f parentFunc : HandlerFunc) (node : wsHandlerTree)
    (hn : h.funcTree f.id = some node) (hc : node.children.isSome = true) :
    (Handle h meta f (some parentFunc)).err ≠ none ∧
    (Handle h meta f (some parentFunc)).funcTree = h.funcTree ∧
    (Handle h meta f (some parentFunc)).funs = h.funs := by
  cases he : h.err with
  | some e => simp [Handle, he]
  | none =>
    by_cases hm : (h.funs meta).isSome
    · simp [Handle, he, hm]
    · simp [Handle, he, hm, hn, hc]

theorem handle_child_conflict_sticky_witness :
    (Handle hChain { Event := "d", Status := "" } (tf 1) (some tfFail)).err ≠ none ∧
    (Handle hChain { Event := "d", Status := "" } (tf 1) (some tfFail)).funcTree =
      hChain.funcTree ∧
    (Handle hChain { Event := "d", Status := "" } (tf 1) (some tfFail)).funs =
      hChain.funs :=
  handle_child_conflict_sticky hChain { Event := "d", Status := "" } (tf 1)
    tfFail { main := tf 1, parent := none, children := some 3 } rfl rfl

/-- C10: when `Handle` rejects a registration because the supplied parent
has no tree node, the handler map gains no entry, but the tree node
freshly created for the handler being registered stays in the function
tree — the mutation is not rolled back. -/
theorem handle_missing_parent_partial_mutation (h : wsHandler)
    (meta : WsFunc) (f p : HandlerFunc) (he : h.err = none)
    (hm : h.funs meta = none) (hf : h.funcTree f.id = none)
    (hp : h.funcTree p.id = none) (hne : p.id ≠ f.id) :
    (Handle h meta f (some p)).funs = h.funs ∧
    (Handle h meta f (some p)).err ≠ none ∧
    (Handle h meta f (some p)).funcTree f.id =
      some { main := f, parent := none, children := none } := by
  simp [Handle, he, hm, hf, linkParent, update, hp, hne]

theorem handle_missing_parent_partial_mutation_witness :
    (Handle NewHandler { Event := "a", Status := "" } (tf 1) (some tfFail)).funs =
      NewHandler.funs ∧
    (Handle NewHandler { Event := "a", Status := "" } (tf 1) (some tfFail)).err ≠ none ∧
    (Handle NewHandler { Event := "a", Status := "" } (tf 1) (some tfFail)).funcTree
      (tf 1).id = some { main := tf 1, parent := none, children := none } :=
  handle_missing_parent_partial_mutation NewHandler
    { Event := "a", Status := "" } (tf 1) tfFail rfl rfl rfl rfl (by decide)

/-- C5: `CallFunc` on an unregistered key returns a non-nil error and a
payload with `Status = ErrorLevel` preserving the input's event; on a
registered key it returns the gate's result with a nil error. -/
theorem callFunc_spec (h : wsHandler) (ctx : Ctx) (sfuel : Nat)
    (meta : WsFunc) (data : WsFuncData) :
    (h.funs meta = none →
      CallFunc h ctx sfuel meta data =
        some
          ({ Client := none
             Payload :=
               { Event := data.Payload.Event
                 Data := none
                 Status := ErrorLevel
                 Broadcast := false } },
           some "func with current params has not been registered")) ∧
    (∀ f d, h.funs meta = some f →
      (shellRun sfuel f ctx data).result = some d →
      CallFunc h ctx sfuel meta data = some (d, none)) := by
  constructor
  · intro hm
    simp [CallFunc, hm]
  · intro f d hm hr
    simp [CallFunc, hm, hr]

/-- A registry with the single chain root `tf 1` under key `("a", "")`. -/
def hReg : wsHandler := Handle NewHandler { Event := "a", Status := "" } (tf 1) none

theorem callFunc_spec_witness :
    (CallFunc hReg { done := false, deadlineExceeded := false } 1
        { Event := "z", Status := "" } d0 =
      some
        ({ Client := none
           Payload :=
             { Event := "evt", Data := none, Status := ErrorLevel,
               Broadcast := false } },
         some "func with current params has not been registered")) ∧
    (CallFunc hReg { done := false, deadlineExceeded := false } 1
        { Event := "a", Status := "" } d0 = some (d0, none)) :=
  ⟨(callFunc_spec hReg { done := false, deadlineExceeded := false } 1
      { Event := "z", Status := "" } d0).1 rfl,
   (callFunc_spec hReg { done := false, deadlineExceeded := false } 1
      { Event := "a", Status := "" } d0).2 (tf 1) d0 rfl rfl⟩

/-- C6: `CallPipelineFunc` on an unregistered key sends exactly one
payload — status `ErrorLevel`, preserving the input's event — invokes no
handler, and returns a non-nil error; whenever the chain walk completes
(to the end or by short-circuit) it returns a nil error. -/
theorem callPipeline_lookup_spec (h : wsHandler) (ctx : Ctx)
    (meta : WsFunc) (data : WsFuncData) (sfuel pfuel : Nat) :
    (h.funs meta = none →
      CallPipelineFunc h ctx meta data sfuel pfuel =
        some
          ([{ Event := data.Payload.Event, Data := none, Status := ErrorLevel,
              Broadcast := false }], [],
           some "func with current params has not been registered")) ∧
    (∀ f node ps ids, h.funs meta = some f → h.funcTree f.id = some node →
      pipelineLoop h ctx sfuel data node pfuel = some (ps, ids) →
      CallPipelineFunc h ctx meta data sfuel pfuel = some (ps, ids, none)) := by
  constructor
  · intro hm
    simp [CallPipelineFunc, hm]
  · intro f node ps ids hm hn hl
    simp [CallPipelineFunc, hm, hn, hl]

theorem callPipeline_lookup_spec_witness :
    (CallPipelineFunc hReg { done := false, deadlineExceeded := false }
        { Event := "z", Status := "" } d0 1 1 =
      some
        ([{ Event := "evt", Data := none, Status := ErrorLevel,
            Broadcast := false }], [],
         some "func with current params has not been registered")) ∧
    (CallPipelineFunc hReg { done := false, deadlineExceeded := false }
        { Event := "a", Status := "" } d0 1 1 =
      some ([d0.Payload], [1], none)) :=
  ⟨(callPipeline_lookup_spec hReg { done := false, deadlineExceeded := false }
      { Event := "z", Status := "" } d0 1 1).1 rfl,
   (callPipeline_lookup_spec hReg { done := false, deadlineExceeded := false }
      { Event := "a", Status := "" } d0 1 1).2 (tf 1)
     { main := tf 1, parent := none, children := none } [d0.Payload] [1]
     rfl rfl rfl⟩

/-- C2: in a pipeline of three chained handlers, when the second step's
output payload has status `ErrorLevel`, `CallPipelineFunc` sends exactly
two payloads and never invokes the third handler.  (Each step of the
source loop receives the original `data` argument — the loop never
reassigns it — so the second step's output is `f2` applied to `data`.) -/
theorem callPipeline_short_circuit (f1 f2 f3 : HandlerFunc)
    (k1 k2 k3 : WsFunc) (ctx : Ctx) (data : WsFuncData) (sfuel pfuel : Nat)
    (h12 : f1.id ≠ f2.id) (h13 : f1.id ≠ f3.id) (h23 : f2.id ≠ f3.id)
    (hk12 : k1 ≠ k2) (hk13 : k1 ≠ k3) (hk23 : k2 ≠ k3)
    (hctx : ctx.done = false) (hs : 1 ≤ sfuel) (hp : 2 ≤ pfuel)
    (hst1 : (f1.run (withTimeout ctx) data).1.Payload.Status ≠ ErrorLevel)
    (hst2 : (f2.run (withTimeout ctx) data).1.Payload.Status = ErrorLevel) :
    CallPipelineFunc
      (Handle (Handle (Handle NewHandler k1 f1 none) k2 f2 (some f1))
        k3 f3 (some f2))
      ctx k1 data sfuel pfuel =
      some ([(f1.run (withTimeout ctx) data).1.Payload,
             (f2.run (withTimeout ctx) data).1.Payload],
            [f1.id, f2.id], none) ∧
    f3.id ∉ [f1.id, f2.id] := by
  obtain ⟨s, rfl⟩ : ∃ s, sfuel = s + 1 := ⟨sfuel - 1, by omega⟩
  obtain ⟨p, rfl⟩ : ∃ p, pfuel = p + 1 + 1 := ⟨pfuel - 2, by omega⟩
  simp only [withTimeout] at hst1 hst2 ⊢
  refine ⟨?_, by simp [h13.symm, h23.symm]⟩
  simp [CallPipelineFunc, Handle, linkParent, NewHandler, update, setChildren,
    setParent, pipelineLoop, shellRun, shellIter, withTimeout, hctx,
    h12, h13, h23, h12.symm, h13.symm, h23.symm,
    hk12, hk13, hk23, hk12.symm, hk13.symm, hk23.symm, hst1, hst2]

theorem callPipeline_short_circuit_witness :
    CallPipelineFunc
      (Handle
        (Handle (Handle NewHandler { Event := "a", Status := "" } (tf 1) none)
          { Event := "b", Status := "" } tfFail (some (tf 1)))
        { Event := "c", Status := "" } (tf 3) (some tfFail))
      { done := false, deadlineExceeded := false }
      { Event := "a", Status := "" } d0 1 2 =
      some ([d0.Payload,
             { Event := "evt", Data := none, Status := ErrorLevel,
               Broadcast := false }],
            [1, 2], none) ∧
    (3 : Nat) ∉ [1, 2] :=
  callPipeline_short_circuit (tf 1) tfFail (tf 3)
    { Event := "a", Status := "" } { Event := "b", Status := "" }
    { Event := "c", Status := "" } { done := false, deadlineExceeded := false }
    d0 1 2 (by decide) (by decide) (by decide) (by decide) (by decide)
    (by decide) rfl (by omega) (by omega) (by decide) rfl
